import Mathlib

/-!
Verification of `cloudbio/edition/base.py` from the cloudbiolinux
repository: the edition classes (Edition, CloudBioLinux, BioNode, Minimal)
and their hook methods, shallowly embedded as Lean functions.

Python lists of strings become `List String`; the fabric environment object
becomes the `Env` structure; side-effecting hooks return a trace of emitted
effects inside `Except` (Python exceptions become `Except.error`); Python
in-place list mutation is modelled with an explicit store of lists indexed
by references.
-/

/-- The fabric environment object, as read by this module: the fields the
edition code actually accesses.  `debian_repository` is `none` when the key
is absent from the environment dictionary. -/
structure Env where
  version : String
  distribution : String
  dist_name : String
  debian_repository : Option String
  sources_file : String
deriving Repr, DecidableEq

/-- Python exceptions that the embedded code can raise. -/
inductive PyError where
  | attributeError
  | valueError (msg : String)
deriving Repr, DecidableEq

/-- Observable effects emitted by side-effecting hooks: privileged remote
command execution (fabric `sudo` / `env.safe_sudo`) and debug logging. -/
inductive Effect where
  | sudoCmd (cmd : String)
  | logDebug (msg : String)
deriving Repr, DecidableEq

/-- Number of remote-execution (privileged command) calls in an effect
trace. -/
def remoteCalls (t : List Effect) : Nat :=
  (t.filter fun e => match e with
    | Effect.sudoCmd _ => true
    | Effect.logDebug _ => false).length

/-- Split a character list at every occurrence of the separator `c`,
keeping empty segments, as Python `str.split(sep)` does. -/
def splitOnChar (c : Char) : List Char → List (List Char)
  | [] => [[]]
  | x :: xs =>
    if x = c then [] :: splitOnChar c xs
    else
      match splitOnChar c xs with
      | [] => [[x]]
      | y :: ys => (x :: y) :: ys

/-- Python `s.split(c)` for a one-character separator: splits at every
occurrence, keeps empty pieces, a trailing separator yields a trailing
empty string. -/
def pySplit (s : String) (c : Char) : List String :=
  (splitOnChar c s.data).map String.mk

/-- State of a constructed edition object: the identity fields set by
`__init__` plus the stored environment reference. -/
structure EditionState where
  name : String
  short_name : String
  version : String
  env : Env
deriving Repr, DecidableEq

namespace Edition

/-- `Edition.check_distribution`: the base class accepts every
distribution (`pass`). -/
def check_distribution (_env : Env) : Except PyError Unit := Except.ok ()

/-- `Edition.__init__(env)`: sets the identity fields and the environment
reference, then invokes the (dynamically dispatched) distribution check.
The dispatched `check_distribution` is passed in explicitly. -/
def init (checkDist : Env → Except PyError Unit) (env : Env) :
    Except PyError EditionState :=
  let s : EditionState :=
    { name := "BioLinux base Edition", short_name := "biolinux",
      version := env.version, env := env }
  (checkDist env).map (fun _ => s)

/-- `Edition.rewrite_apt_sources_list`: returns its input. -/
def rewrite_apt_sources_list (sources : List String) : List String :=
  sources

/-- `Edition.rewrite_apt_preferences`: returns its input. -/
def rewrite_apt_preferences (preferences : List String) : List String :=
  preferences

/-- `Edition.rewrite_apt_automation`: returns its input. -/
def rewrite_apt_automation (package_info : List String) : List String :=
  package_info

/-- `Edition.rewrite_apt_keys`: returns its input pair. -/
def rewrite_apt_keys (standalone keyserver : List String) :
    List String × List String :=
  (standalone, keyserver)

/-- `Edition.apt_upgrade_system(env=None)`: picks `env.safe_sudo` when an
env is passed, the ambient `sudo` otherwise, and runs one forced upgrade
command either way. -/
def apt_upgrade_system (_env : Option Env) : Except PyError (List Effect) :=
  Except.ok [Effect.sudoCmd "apt-get -y --force-yes upgrade"]

/-- `Edition.rewrite_config_items`: returns its input list. -/
def rewrite_config_items (_name : String) (items : List String) :
    List String :=
  items

end Edition

/-- One step of the CloudBioLinux `rewrite_config_items` loop body:
`if x not in items: items.append(x)`, with the membership test taken on the
current (already extended) list, as Python does. -/
def addIfMissing (acc : List String) (x : String) : List String :=
  if x ∈ acc then acc else acc ++ [x]

namespace CloudBioLinux

/-- `CloudBioLinux.check_distribution`: inherited from `Edition`. -/
def check_distribution : Env → Except PyError Unit :=
  Edition.check_distribution

/-- `CloudBioLinux.__init__(env)`: runs `Edition.__init__`, then overwrites
the identity fields. -/
def init (env : Env) : Except PyError EditionState :=
  (Edition.init check_distribution env).map
    (fun s => { s with name := "CloudBioLinux Edition",
                       short_name := "cloudbiolinux" })

/-- `CloudBioLinux.rewrite_apt_sources_list`: inherited from `Edition`. -/
def rewrite_apt_sources_list : List String → List String :=
  Edition.rewrite_apt_sources_list

/-- `CloudBioLinux.rewrite_apt_preferences`: inherited from `Edition`. -/
def rewrite_apt_preferences : List String → List String :=
  Edition.rewrite_apt_preferences

/-- `CloudBioLinux.rewrite_apt_automation`: inherited from `Edition`. -/
def rewrite_apt_automation : List String → List String :=
  Edition.rewrite_apt_automation

/-- `CloudBioLinux.rewrite_apt_keys`: inherited from `Edition`. -/
def rewrite_apt_keys : List String → List String → List String × List String :=
  Edition.rewrite_apt_keys

/-- `CloudBioLinux.rewrite_config_items(name, items)`: appends each of
`"galaxy"`, `"galaxy_tools"`, `"cloudman"` to `items` when not already
present, and returns the (mutated) list.  This is the value-level result;
the aliasing behaviour is modelled separately by
`rewrite_config_items_ref`. -/
def rewrite_config_items (_name : String) (items : List String) :
    List String :=
  ["galaxy", "galaxy_tools", "cloudman"].foldl addIfMissing items

/-- A Python heap of list objects: each `Nat` reference names one list. -/
abbrev Store : Type := Nat → List String

/-- Heap update at one reference. -/
def storeSet (s : Store) (r : Nat) (v : List String) : Store :=
  fun i => if i = r then v else s i

/-- `CloudBioLinux.rewrite_config_items` at the heap level: the loop
mutates the list object named by `r` in place (its net effect on the heap
is to replace that object's contents with the extended list) and the
method returns the very same reference it was given. -/
def rewrite_config_items_ref (s : Store) (name : String) (r : Nat) :
    Store × Nat :=
  (storeSet s r (rewrite_config_items name (s r)), r)

end CloudBioLinux

namespace BioNode

/-- `BioNode.check_distribution`: the Debian-only check is commented out
in the source, leaving `pass`. -/
def check_distribution (_env : Env) : Except PyError Unit := Except.ok ()

/-- `BioNode.__init__(env)`: runs `Edition.__init__`, then overwrites the
identity fields. -/
def init (env : Env) : Except PyError EditionState :=
  (Edition.init check_distribution env).map
    (fun s => { s with name := "BioNode Edition", short_name := "bionode" })

/-- The fixed bio-linux repository line appended by BioNode and returned
alone by Minimal. -/
def bioLinuxRepo : String :=
  "deb http://nebc.nerc.ac.uk/bio-linux/ unstable bio-linux"

/-- `BioNode.rewrite_apt_sources_list(sources)`: ignores `sources`; when
the distribution is `"debian"` builds the three Debian repository lines
(main mirror overridable through `env.debian_repository`, with Python's
falsy test treating an empty string like an absent key), then appends the
fixed bio-linux line. -/
def rewrite_apt_sources_list (env : Env) (_sources : List String) :
    List String :=
  let new_sources : List String :=
    if env.distribution = "debian" then
      let main_repository : String :=
        match env.debian_repository with
        | none => "http://ftp.us.debian.org/debian/"
        | some r => if r = "" then "http://ftp.us.debian.org/debian/" else r
      ["deb " ++ main_repository ++ " " ++ env.dist_name ++
         " main contrib non-free",
       "deb " ++ main_repository ++ " " ++ env.dist_name ++
         "-updates main contrib non-free",
       "deb " ++ main_repository ++ " testing main contrib non-free"]
    else []
  new_sources ++ [bioLinuxRepo]

/-- The fixed preferences text returned by `BioNode.rewrite_apt_preferences`
(verbatim, including the duplicated first `Package: *` line of the
source). -/
def preferencesText : String :=
  "Package: *\nPackage: *\nPin: release n=natty\nPin-Priority: 900\n\nPackage: *\nPin: release a=stable\nPin-Priority: 700\n\nPackage: *\nPin: release a=testing\nPin-Priority: 650\n\nPackage: *\nPin: release a=bio-linux\nPin-Priority: 400\n"

/-- `BioNode.rewrite_apt_preferences(preferences)`: ignores its input and
returns the fixed text split on newlines (Python `str.split` on a single
newline separator). -/
def rewrite_apt_preferences (_preferences : List String) : List String :=
  pySplit preferencesText '\n'

/-- `BioNode.rewrite_apt_automation`: always the empty list. -/
def rewrite_apt_automation (_package_info : List String) : List String :=
  []

/-- `BioNode.rewrite_apt_keys`: always the pair of empty lists. -/
def rewrite_apt_keys (_standalone _keyserver : List String) :
    List String × List String :=
  ([], [])

/-- `BioNode.rewrite_config_items(name, items)`: appends the keyring
package for the `"minimal"` category, identity otherwise. -/
def rewrite_config_items (name : String) (items : List String) :
    List String :=
  if name = "minimal" then items ++ ["bio-linux-keyring"] else items

/-- `BioNode.apt_upgrade_system`: inherited from `Edition`. -/
def apt_upgrade_system : Option Env → Except PyError (List Effect) :=
  Edition.apt_upgrade_system

end BioNode

namespace Minimal

/-- `Minimal.check_distribution`: inherited from `Edition`. -/
def check_distribution : Env → Except PyError Unit :=
  Edition.check_distribution

/-- `Minimal.__init__(env)`: runs `Edition.__init__`, then overwrites the
identity fields. -/
def init (env : Env) : Except PyError EditionState :=
  (Edition.init check_distribution env).map
    (fun s => { s with name := "Minimal Edition", short_name := "minimal" })

/-- `Minimal.rewrite_apt_sources_list(sources)`: ignores its input and
returns only the fixed bio-linux repository line. -/
def rewrite_apt_sources_list (_sources : List String) : List String :=
  [BioNode.bioLinuxRepo]

/-- `Minimal.rewrite_apt_automation`: always the empty list. -/
def rewrite_apt_automation (_package_info : List String) : List String :=
  []

/-- `Minimal.rewrite_apt_keys`: always the pair of empty lists. -/
def rewrite_apt_keys (_standalone _keyserver : List String) :
    List String × List String :=
  ([], [])

/-- `Minimal.apt_upgrade_system(env=None)`: reads `env.logger` from the
passed-in parameter (not from the stored `self.env`, which is ignored), so
a `None` parameter raises `AttributeError`; with an env passed it only
logs a debug message and runs no command. -/
def apt_upgrade_system (_selfEnv : Env) (env : Option Env) :
    Except PyError (List Effect) :=
  match env with
  | none => Except.error PyError.attributeError
  | some _ => Except.ok [Effect.logDebug "Skipping forced system upgrade"]

/-- `Minimal.rewrite_config_items`: returns its input list. -/
def rewrite_config_items (_name : String) (items : List String) :
    List String :=
  items

end Minimal

/-- One pinning-policy tier: a release selector with its priority, as the
three lines it occupies in an apt preferences file. -/
def pinStanza (release : String) (priority : Nat) : List String :=
  ["Package: *", "Pin: release " ++ release,
   "Pin-Priority: " ++ toString priority]

/-! Helper lemmas about one step of the CloudBioLinux config-item loop. -/

/-- Appending a candidate that is not already present never removes an
existing member. -/
theorem mem_addIfMissing_of_mem (acc : List String) (y x : String)
    (hx : x ∈ acc) : x ∈ addIfMissing acc y := by
  unfold addIfMissing
  split
  · exact hx
  · exact List.mem_append_left _ hx

/-- After its own loop step, the candidate is present. -/
theorem self_mem_addIfMissing (acc : List String) (y : String) :
    y ∈ addIfMissing acc y := by
  unfold addIfMissing
  split
  · assumption
  · exact List.mem_append_right _ (List.mem_singleton.mpr rfl)

/-- A loop step never changes the multiplicity of an element that is
already in the list: either nothing is appended, or the appended candidate
differs from it. -/
theorem count_addIfMissing_of_mem (acc : List String) (y x : String)
    (hx : x ∈ acc) : (addIfMissing acc y).count x = acc.count x := by
  unfold addIfMissing
  by_cases hy : y ∈ acc
  · simp [hy]
  · have hyx : y ≠ x := fun h => hy (h ▸ hx)
    simp [hy, List.count_append, List.count_singleton', hyx]

/-- Unfolding of the CloudBioLinux rewrite loop into its three steps. -/
theorem cbl_rewrite_eq_steps (name : String) (items : List String) :
    CloudBioLinux.rewrite_config_items name items =
      addIfMissing (addIfMissing (addIfMissing items "galaxy")
        "galaxy_tools") "cloudman" := rfl

/-- Each of the three fixed entries is present in the output of
`CloudBioLinux.rewrite_config_items`, whatever the input list was. -/
theorem mem_cbl_rewrite (name : String) (items : List String) (x : String)
    (hx : x ∈ (["galaxy", "galaxy_tools", "cloudman"] : List String)) :
    x ∈ CloudBioLinux.rewrite_config_items name items := by
  rw [cbl_rewrite_eq_steps]
  simp only [List.mem_cons, List.not_mem_nil, or_false] at hx
  rcases hx with h | h | h <;> subst h
  · exact mem_addIfMissing_of_mem _ _ _
      (mem_addIfMissing_of_mem _ _ _ (self_mem_addIfMissing _ _))
  · exact mem_addIfMissing_of_mem _ _ _ (self_mem_addIfMissing _ _)
  · exact self_mem_addIfMissing _ _

/-- Unfolding of `BioNode.rewrite_apt_sources_list` in the Debian case
with no repository override: the three Debian lines with the default
mirror, then the fixed bio-linux line. -/
theorem bionode_sources_debian (env : Env) (sources : List String)
    (hd : env.distribution = "debian") (hrepo : env.debian_repository = none) :
    BioNode.rewrite_apt_sources_list env sources =
      ["deb http://ftp.us.debian.org/debian/ " ++ env.dist_name ++
         " main contrib non-free",
       "deb http://ftp.us.debian.org/debian/ " ++ env.dist_name ++
         "-updates main contrib non-free",
       "deb http://ftp.us.debian.org/debian/ testing main contrib non-free",
       BioNode.bioLinuxRepo] := by
  unfold BioNode.rewrite_apt_sources_list
  rw [hrepo, hd]
  rfl

/-! The claims. -/

/-- C1: `BioNode.rewrite_apt_sources_list` never depends on its input
sequence; with distribution `"debian"` and no repository override the
first returned entry is the default-mirror Debian line for the
environment's dist name and the last is the fixed bio-linux line; with a
distribution other than `"debian"` the result is exactly the one fixed
bio-linux entry. -/
theorem c1_bionode_sources_list (env : Env) (sources sources2 : List String) :
    BioNode.rewrite_apt_sources_list env sources =
      BioNode.rewrite_apt_sources_list env sources2 ∧
    (env.distribution = "debian" → env.debian_repository = none →
      (BioNode.rewrite_apt_sources_list env sources).head? =
        some ("deb http://ftp.us.debian.org/debian/ " ++ env.dist_name ++
          " main contrib non-free") ∧
      (BioNode.rewrite_apt_sources_list env sources).getLast? =
        some BioNode.bioLinuxRepo) ∧
    (env.distribution ≠ "debian" →
      BioNode.rewrite_apt_sources_list env sources = [BioNode.bioLinuxRepo]) := by
  refine ⟨rfl, fun hd hrepo => ?_, fun hd => ?_⟩
  · rw [bionode_sources_debian env sources hd hrepo]
    exact ⟨rfl, rfl⟩
  · unfold BioNode.rewrite_apt_sources_list
    simp [hd]

/-- C1 witness: concrete Debian environment with dist name `squeeze` and
no override, and a concrete non-Debian environment. -/
theorem c1_bionode_sources_list_witness :
    ((BioNode.rewrite_apt_sources_list
        ⟨"1.0", "debian", "squeeze", none, "/etc/apt/sources.list"⟩
        ["old entry"]).head? =
      some ("deb http://ftp.us.debian.org/debian/ " ++ "squeeze" ++
        " main contrib non-free") ∧
     (BioNode.rewrite_apt_sources_list
        ⟨"1.0", "debian", "squeeze", none, "/etc/apt/sources.list"⟩
        ["old entry"]).getLast? = some BioNode.bioLinuxRepo) ∧
    BioNode.rewrite_apt_sources_list
        ⟨"1.0", "ubuntu", "natty", none, "/etc/apt/sources.list"⟩
        ["old entry"] = [BioNode.bioLinuxRepo] :=
  ⟨(c1_bionode_sources_list
      ⟨"1.0", "debian", "squeeze", none, "/etc/apt/sources.list"⟩
      ["old entry"] []).2.1 rfl rfl,
   (c1_bionode_sources_list
      ⟨"1.0", "ubuntu", "natty", none, "/etc/apt/sources.list"⟩
      ["old entry"] []).2.2 (by decide)⟩

/-- C2 counterexample: on an input that already holds `"galaxy"` twice,
the output of `CloudBioLinux.rewrite_config_items` holds it twice, not
exactly once, so the claim as stated fails. -/
theorem c2_rewrite_config_items_counterexample :
    "galaxy" ∈ (["galaxy", "galaxy"] : List String) ∧
    (CloudBioLinux.rewrite_config_items "packages"
        ["galaxy", "galaxy"]).count "galaxy" ≠ 1 := by
  decide

/-- C2 amended: on the empty list the output is exactly
`["galaxy", "galaxy_tools", "cloudman"]` in order; when the input already
holds one of those three entries, no further copy of it is appended: its
multiplicity in the output equals its multiplicity in the input. -/
theorem c2_rewrite_config_items_amended (name : String) (items : List String)
    (x : String) (hx : x ∈ (["galaxy", "galaxy_tools", "cloudman"] : List String))
    (hmem : x ∈ items) :
    CloudBioLinux.rewrite_config_items name [] =
      ["galaxy", "galaxy_tools", "cloudman"] ∧
    (CloudBioLinux.rewrite_config_items name items).count x = items.count x := by
  refine ⟨rfl, ?_⟩
  rw [cbl_rewrite_eq_steps]
  have m1 := mem_addIfMissing_of_mem items "galaxy" x hmem
  have m2 := mem_addIfMissing_of_mem _ "galaxy_tools" x m1
  rw [count_addIfMissing_of_mem _ "cloudman" x m2,
      count_addIfMissing_of_mem _ "galaxy_tools" x m1,
      count_addIfMissing_of_mem _ "galaxy" x hmem]

/-- C2 witness: category `"custom"`, input `["galaxy", "z"]`, entry
`"galaxy"`. -/
theorem c2_rewrite_config_items_amended_witness :
    CloudBioLinux.rewrite_config_items "custom" [] =
      ["galaxy", "galaxy_tools", "cloudman"] ∧
    (CloudBioLinux.rewrite_config_items "custom" ["galaxy", "z"]).count
        "galaxy" = (["galaxy", "z"] : List String).count "galaxy" :=
  c2_rewrite_config_items_amended "custom" ["galaxy", "z"] "galaxy"
    (by decide) (by decide)

/-- C3: the four apt rewrite hooks of the base `Edition` and of
`CloudBioLinux` (which inherits all four) return their input unchanged. -/
theorem c3_identity_law (s p a k1 k2 : List String) :
    Edition.rewrite_apt_sources_list s = s ∧
    Edition.rewrite_apt_preferences p = p ∧
    Edition.rewrite_apt_automation a = a ∧
    Edition.rewrite_apt_keys k1 k2 = (k1, k2) ∧
    CloudBioLinux.rewrite_apt_sources_list s = s ∧
    CloudBioLinux.rewrite_apt_preferences p = p ∧
    CloudBioLinux.rewrite_apt_automation a = a ∧
    CloudBioLinux.rewrite_apt_keys k1 k2 = (k1, k2) :=
  ⟨rfl, rfl, rfl, rfl, rfl, rfl, rfl, rfl⟩

/-- C4: `BioNode.rewrite_apt_preferences` ignores its input and always
returns one fixed pinning policy of four tiers, in order: the
distribution release `n=natty` at priority 900 (highest), `a=stable` at
700, `a=testing` at 650, `a=bio-linux` at 400 (lowest).  (The source's
duplicated leading `Package: *` line and the empty separator lines are
reproduced verbatim.) -/
theorem c4_bionode_preferences (preferences other : List String) :
    BioNode.rewrite_apt_preferences preferences =
      BioNode.rewrite_apt_preferences other ∧
    BioNode.rewrite_apt_preferences preferences =
      ["Package: *"] ++ pinStanza "n=natty" 900 ++ [""] ++
        pinStanza "a=stable" 700 ++ [""] ++ pinStanza "a=testing" 650 ++
        [""] ++ pinStanza "a=bio-linux" 400 ++ [""] ∧
    ((900 : Nat) > 700 ∧ (700 : Nat) > 650 ∧ (650 : Nat) > 400) := by
  refine ⟨rfl, ?_, by decide⟩
  show pySplit BioNode.preferencesText '\n' =
      ["Package: *"] ++ pinStanza "n=natty" 900 ++ [""] ++
        pinStanza "a=stable" 700 ++ [""] ++ pinStanza "a=testing" 650 ++
        [""] ++ pinStanza "a=bio-linux" 400 ++ [""]
  decide

/-- C5: every variant's `__init__` sets the identity fields and then runs
its distribution check; every variant's check succeeds on every
environment, so construction never fails and yields the expected fields. -/
theorem c5_construction_never_fails (env : Env) :
    Edition.check_distribution env = Except.ok () ∧
    CloudBioLinux.check_distribution env = Except.ok () ∧
    BioNode.check_distribution env = Except.ok () ∧
    Minimal.check_distribution env = Except.ok () ∧
    Edition.init Edition.check_distribution env =
      Except.ok { name := "BioLinux base Edition", short_name := "biolinux",
                  version := env.version, env := env } ∧
    CloudBioLinux.init env =
      Except.ok { name := "CloudBioLinux Edition",
                  short_name := "cloudbiolinux",
                  version := env.version, env := env } ∧
    BioNode.init env =
      Except.ok { name := "BioNode Edition", short_name := "bionode",
                  version := env.version, env := env } ∧
    Minimal.init env =
      Except.ok { name := "Minimal Edition", short_name := "minimal",
                  version := env.version, env := env } :=
  ⟨rfl, rfl, rfl, rfl, rfl, rfl, rfl, rfl⟩

/-- C6: `Minimal.apt_upgrade_system` emits zero remote-execution calls,
while the base `Edition`'s version - inherited unchanged by `BioNode` -
emits exactly one forced whole-system upgrade command. -/
theorem c6_upgrade_remote_calls (selfEnv e : Env) (envOpt : Option Env) :
    Minimal.apt_upgrade_system selfEnv (some e) =
      Except.ok [Effect.logDebug "Skipping forced system upgrade"] ∧
    remoteCalls [Effect.logDebug "Skipping forced system upgrade"] = 0 ∧
    Edition.apt_upgrade_system envOpt =
      Except.ok [Effect.sudoCmd "apt-get -y --force-yes upgrade"] ∧
    remoteCalls [Effect.sudoCmd "apt-get -y --force-yes upgrade"] = 1 ∧
    BioNode.apt_upgrade_system envOpt = Edition.apt_upgrade_system envOpt :=
  ⟨rfl, rfl, rfl, rfl, rfl⟩

/-- C7: `BioNode.rewrite_config_items` with the category `"minimal"` and
input `["x"]` returns `["x", "bio-linux-keyring"]`; with any other
category name it returns its input unchanged. -/
theorem c7_bionode_config_items (name : String) (items : List String)
    (h : name ≠ "minimal") :
    BioNode.rewrite_config_items "minimal" ["x"] = ["x", "bio-linux-keyring"] ∧
    BioNode.rewrite_config_items name items = items := by
  refine ⟨rfl, ?_⟩
  unfold BioNode.rewrite_config_items
  simp [h]

/-- C7 witness: category `"packages"` with input `["a", "b"]`. -/
theorem c7_bionode_config_items_witness :
    BioNode.rewrite_config_items "minimal" ["x"] = ["x", "bio-linux-keyring"] ∧
    BioNode.rewrite_config_items "packages" ["a", "b"] = ["a", "b"] :=
  c7_bionode_config_items "packages" ["a", "b"] (by decide)

/-- C8: for every input, `rewrite_apt_keys` of BioNode and Minimal
returns `([], [])` and their `rewrite_apt_automation` returns `[]`. -/
theorem c8_keys_and_automation_empty (s k a : List String) :
    BioNode.rewrite_apt_keys s k = ([], []) ∧
    Minimal.rewrite_apt_keys s k = ([], []) ∧
    BioNode.rewrite_apt_automation a = [] ∧
    Minimal.rewrite_apt_automation a = [] :=
  ⟨rfl, rfl, rfl, rfl⟩

/-- C9: at the heap level, `CloudBioLinux.rewrite_config_items` returns
the very reference it was given, the list object behind that reference
now holds the rewritten contents, and whenever one of the three fixed
entries was missing from the input list the caller's list object has
changed. -/
theorem c9_cbl_rewrite_mutates (s : CloudBioLinux.Store) (name : String)
    (r : Nat) (x : String)
    (hx : x ∈ (["galaxy", "galaxy_tools", "cloudman"] : List String))
    (hmiss : x ∉ s r) :
    (CloudBioLinux.rewrite_config_items_ref s name r).2 = r ∧
    (CloudBioLinux.rewrite_config_items_ref s name r).1 r =
      CloudBioLinux.rewrite_config_items name (s r) ∧
    (CloudBioLinux.rewrite_config_items_ref s name r).1 r ≠ s r := by
  have eq2 : (CloudBioLinux.rewrite_config_items_ref s name r).1 r =
      CloudBioLinux.rewrite_config_items name (s r) := by
    simp [CloudBioLinux.rewrite_config_items_ref, CloudBioLinux.storeSet]
  refine ⟨rfl, eq2, ?_⟩
  rw [eq2]
  intro hEq
  exact hmiss (hEq ▸ mem_cbl_rewrite name (s r) x hx)

/-- C9 witness: a one-object heap holding `["z"]` at reference 0; the
entry `"galaxy"` is missing, so the object's contents change while the
returned reference is still 0. -/
theorem c9_cbl_rewrite_mutates_witness :
    (CloudBioLinux.rewrite_config_items_ref (fun _ => ["z"]) "packages" 0).2
      = 0 ∧
    (CloudBioLinux.rewrite_config_items_ref (fun _ => ["z"]) "packages" 0).1 0
      = CloudBioLinux.rewrite_config_items "packages"
          ((fun _ => (["z"] : List String)) 0) ∧
    (CloudBioLinux.rewrite_config_items_ref (fun _ => ["z"]) "packages" 0).1 0
      ≠ (fun _ => (["z"] : List String)) 0 :=
  c9_cbl_rewrite_mutates (fun _ => ["z"]) "packages" 0 "galaxy"
    (by decide) (by decide)

/-- C10: `Minimal.apt_upgrade_system` reads the logger from its `env`
parameter, ignoring the stored environment: with the default `none` it
fails with an attribute error; with an explicit environment it only logs
and performs nothing. -/
theorem c10_minimal_upgrade_default_env (selfEnv e : Env) :
    Minimal.apt_upgrade_system selfEnv none =
      Except.error PyError.attributeError ∧
    Minimal.apt_upgrade_system selfEnv (some e) =
      Except.ok [Effect.logDebug "Skipping forced system upgrade"] :=
  ⟨rfl, rfl⟩
